import Mathlib

set_option maxRecDepth 4000

/-!
# Verification of the go-iam react session manager (`src/react/src/state.ts`)

This file gives a shallow embedding of the session-manager module of the
go-iam SDK (the react `state.ts` module) and proves, or refutes, the
specification's claims about it.

Conventions of the embedding:
* JS numbers that hold instants (`Date.getTime()`) are `Int` milliseconds.
* A `Date` parsed from an unparsable string (`new Date("")`, whose
  `getTime()` is `NaN`, so every `<` comparison is `false`) is modelled by
  `Option Int` with value `none`.
* Byte arrays (`Uint8Array`) are `List Nat` with entries below 256.
* The asynchronous `fetch` is modelled by passing the outcome of the network
  call (the resolved HTTP response, or the rejection) as an explicit argument;
  the promise chain then runs as a pure function of the session state, the
  storage, and that outcome.
* Every endpoint of the identity server answers with the JSON envelope
  `{success, message, data}`, so `response.json()` is modelled as the already
  parsed envelope carried by the response.
-/

namespace GoIam

/-! ## base64url encoding (`base64URLEncode` of state.ts)

`btoa(String.fromCharCode(...bytes))` followed by the three `replace` calls
`/\+/g → "-"`, `/\//g → "_"`, `/=+$/ → ""`. -/

def b64Alphabet : List Char :=
  "ABCDEFGHIJKLMNOPQRSTUVWXYZabcdefghijklmnopqrstuvwxyz0123456789+/".data

def b64Char (n : Nat) : Char := b64Alphabet.getD n 'A'

/-- Standard base64 with `=` padding, as produced by `btoa` on a byte string. -/
def btoa : List Nat → List Char
  | [] => []
  | [a] => [b64Char (a / 4), b64Char (a % 4 * 16), '=', '=']
  | [a, b] => [b64Char (a / 4), b64Char (a % 4 * 16 + b / 16), b64Char (b % 16 * 4), '=']
  | a :: b :: c :: rest =>
      b64Char (a / 4) :: b64Char (a % 4 * 16 + b / 16) ::
      b64Char (b % 16 * 4 + c / 64) :: b64Char (c % 64) :: btoa rest

/-- `.replace(/x/g, y)` for single characters. -/
def replaceChar (c₁ c₂ : Char) (l : List Char) : List Char :=
  l.map fun c => if c = c₁ then c₂ else c

/-- `.replace(/=+$/, "")`: drop the trailing run of `=`. -/
def stripTrailingEq (l : List Char) : List Char :=
  (l.reverse.dropWhile (· = '=')).reverse

def base64URLEncode (bytes : List Nat) : String :=
  ⟨stripTrailingEq (replaceChar '/' '_' (replaceChar '+' '-' (btoa bytes)))⟩

/-! ## SHA-256

Modelled from the spec: §4.1 requires the PKCE challenge to be the
base64url-encoded **SHA-256 digest** of the 32 random bytes.  `state.ts`
contains no hash implementation at all, so the digest function (FIPS 180-4
SHA-256 over a byte list) is modelled here from the spec's words in order to
state what the spec prescribes. -/

namespace SHA256

def w32 : Nat := 4294967296

def rotr (n x : Nat) : Nat := ((x >>> n) ||| (x <<< (32 - n))) % w32

def bsig0 (x : Nat) : Nat := (rotr 2 x) ^^^ (rotr 13 x) ^^^ (rotr 22 x)
def bsig1 (x : Nat) : Nat := (rotr 6 x) ^^^ (rotr 11 x) ^^^ (rotr 25 x)
def ssig0 (x : Nat) : Nat := (rotr 7 x) ^^^ (rotr 18 x) ^^^ (x >>> 3)
def ssig1 (x : Nat) : Nat := (rotr 17 x) ^^^ (rotr 19 x) ^^^ (x >>> 10)

def ch (x y z : Nat) : Nat := (x &&& y) ^^^ ((x ^^^ 0xffffffff) &&& z)
def maj (x y z : Nat) : Nat := (x &&& y) ^^^ (x &&& z) ^^^ (y &&& z)

/-- The 64 round constants of FIPS 180-4 §4.2.2 (in decimal). -/
def K : List Nat :=
  [1116352408, 1899447441, 3049323471, 3921009573, 961987163,
   1508970993, 2453635748, 2870763221, 3624381080, 310598401,
   607225278, 1426881987, 1925078388, 2162078206, 2614888103,
   3248222580, 3835390401, 4022224774, 264347078, 604807628,
   770255983, 1249150122, 1555081692, 1996064986, 2554220882,
   2821834349, 2952996808, 3210313671, 3336571891, 3584528711,
   113926993, 338241895, 666307205, 773529912, 1294757372,
   1396182291, 1695183700, 1986661051, 2177026350, 2456956037,
   2730485921, 2820302411, 3259730800, 3345764771, 3516065817,
   3600352804, 4094571909, 275423344, 430227734, 506948616,
   659060556, 883997877, 958139571, 1322822218, 1537002063,
   1747873779, 1955562222, 2024104815, 2227730452, 2361852424,
   2428436474, 2756734187, 3204031479, 3329325298]

/-- The initial hash value of FIPS 180-4 §5.3.3 (in decimal). -/
def H0 : List Nat :=
  [1779033703, 3144134277, 1013904242, 2773480762,
   1359893119, 2600822924, 528734635, 1541459225]

/-- Big-endian 8-byte encoding of a (64-bit) natural. -/
def beBytes8 (n : Nat) : List Nat :=
  [(n >>> 56) % 256, (n >>> 48) % 256, (n >>> 40) % 256, (n >>> 32) % 256,
   (n >>> 24) % 256, (n >>> 16) % 256, (n >>> 8) % 256, n % 256]

/-- Big-endian 4-byte encoding of a 32-bit word. -/
def beBytes4 (n : Nat) : List Nat :=
  [(n >>> 24) % 256, (n >>> 16) % 256, (n >>> 8) % 256, n % 256]

/-- Padding: a `1` bit, zeros, then the bit length, to a 64-byte boundary. -/
def pad (msg : List Nat) : List Nat :=
  let L := msg.length
  msg ++ [0x80] ++ List.replicate ((64 - (L + 9) % 64) % 64) 0 ++ beBytes8 (8 * L)

/-- Big-endian 32-bit words from a byte list. -/
def toWords : List Nat → List Nat
  | a :: b :: c :: d :: rest =>
      (a * 16777216 + b * 65536 + c * 256 + d) :: toWords rest
  | _ => []

/-- Split a (padded) byte list into 64-byte blocks.  The fuel argument of the
auxiliary bounds the number of blocks (one block consumes 64 bytes, so the
byte count is ample fuel); it only serves structural termination. -/
def toBlocksAux : Nat → List Nat → List (List Nat)
  | 0, _ => []
  | _ + 1, [] => []
  | fuel + 1, l => l.take 64 :: toBlocksAux fuel (l.drop 64)

def toBlocks (l : List Nat) : List (List Nat) :=
  toBlocksAux l.length l

/-- Extend the 16 message-schedule words to 64. -/
def schedule (ws : List Nat) : List Nat :=
  (List.range 48).foldl
    (fun acc _ =>
      let t := acc.length
      acc ++ [(ssig1 (acc.getD (t - 2) 0) + acc.getD (t - 7) 0 +
               ssig0 (acc.getD (t - 15) 0) + acc.getD (t - 16) 0) % w32])
    ws

/-- One compression round on the working variables `[a,b,c,d,e,f,g,h]`. -/
def round (st : List Nat) (k w : Nat) : List Nat :=
  match st with
  | [a, b, c, d, e, f, g, h] =>
      let t1 := (h + bsig1 e + ch e f g + k + w) % w32
      let t2 := (bsig0 a + maj a b c) % w32
      [(t1 + t2) % w32, a, b, c, (d + t1) % w32, e, f, g]
  | st => st

def compressBlock (h : List Nat) (block : List Nat) : List Nat :=
  let ws := schedule (toWords block)
  let st := (K.zip ws).foldl (fun st kw => round st kw.1 kw.2) h
  (h.zip st).map fun p => (p.1 + p.2) % w32

/-- SHA-256 digest of a byte list, as a list of 32 bytes. -/
def digest (msg : List Nat) : List Nat :=
  (((toBlocks (pad msg)).foldl compressBlock H0).map beBytes4).flatten

end SHA256

/-- FIPS 180-4 test vector: the digest of the empty message. -/
theorem sha256_empty_vector :
    SHA256.digest [] =
      [227, 176, 196, 66, 152, 252, 28, 20, 154, 251, 244, 200, 153, 111, 185,
       36, 39, 174, 65, 228, 100, 155, 147, 76, 164, 149, 153, 27, 120, 82,
       184, 85] := by decide

/-- FIPS 180-4 test vector: the digest of `"abc"`. -/
theorem sha256_abc_vector :
    SHA256.digest [97, 98, 99] =
      [186, 120, 22, 191, 143, 1, 207, 234, 65, 65, 64, 222, 93, 174, 34, 35,
       176, 3, 97, 163, 150, 23, 122, 156, 180, 16, 255, 97, 242, 0, 21,
       173] := by decide

/-- Multi-block test vector: the digest of 100 repetitions of `"a"`. -/
theorem sha256_multiblock_vector :
    SHA256.digest (List.replicate 100 97) =
      [40, 22, 89, 120, 136, 228, 160, 211, 163, 107, 130, 184, 51, 22, 171,
       50, 104, 14, 184, 240, 15, 140, 211, 185, 4, 214, 129, 36, 109, 40,
       90, 14] := by decide

/-! ## The PKCE generator (`generatePKCECodes` of state.ts) -/

/-- The record literal returned by `generatePKCECodes`.  It carries no
verifier field: the function returns only the challenge and the method. -/
structure PKCECodes where
  code_challenge : String
  code_challenge_method : String
deriving Repr, DecidableEq

/-- `generatePKCECodes` of state.ts, with the 32 bytes written by
`crypto.getRandomValues(array)` passed explicitly as `array`.  The source
base64url-encodes the random bytes themselves and fixes the method string. -/
def generatePKCECodes (array : List Nat) : PKCECodes :=
  { code_challenge := base64URLEncode array
    code_challenge_method := "S256" }

/-- Modelled from the spec: the `PKCEChallenge` record of §3/§4.1 — the raw
random bytes kept as the verifier, the base64url-encoded SHA-256 digest of
them as the challenge, and the fixed method `"S256"`. -/
structure PKCEChallenge where
  verifier : List Nat
  challenge : String
  method : String
deriving Repr, DecidableEq

/-- Modelled from the spec: the PKCE generator contract of §4.1
(`generate() -> PKCEChallenge`), applied to the 32 drawn bytes. -/
def specGenerate (bytes : List Nat) : PKCEChallenge :=
  { verifier := bytes
    challenge := base64URLEncode (SHA256.digest bytes)
    method := "S256" }

/-! ## The data model (`types.ts` of the react package)

Records (`Record<string, T>`) are association lists; a lookup that misses
models a JS property read yielding `undefined`.  Optional interface fields
are `Option`. -/

structure UserRole where
  id : String
  name : String
deriving Repr, DecidableEq

structure UserResource where
  role_ids : List (String × Bool)
  policy_ids : List (String × Bool)
  name : String
  key : String
deriving Repr, DecidableEq

structure UserPolicyMappingValue where
  static : String
deriving Repr, DecidableEq

structure UserPolicyMapping where
  arguments : List (String × UserPolicyMappingValue)
deriving Repr, DecidableEq

structure UserPolicy where
  name : String
  mapping : UserPolicyMapping
deriving Repr, DecidableEq

/-- The `User` profile.  `resources` is `Option`al because `state.ts` itself
guards the field with `|| []` in `hasRequiredResources` (a hydrated JSON
value may lack it even though the interface declares it required). -/
structure User where
  id : String
  project_id : String
  email : String
  name : Option String
  phone : Option String
  enabled : Bool
  profile_pic : Option String
  expiry : Option String
  roles : List (String × UserRole)
  resources : Option (List (String × UserResource))
  policies : List (String × UserPolicy)
  created_at : Option String
  created_by : String
  updated_at : Option String
  updated_by : String
deriving Repr, DecidableEq

/-! ## The session state and the persistent store -/

/-- The `GoIamState` interface of state.ts.

* `token` is a `String`; the source initialises it to
  `localStorage.getItem("access_token") || ""`, so the empty string models
  the absent/undefined token (both are falsy in every use in the module).
* `clientId` likewise; on an envelope whose `data` is `null`, the source
  assigns the raw JS value `undefined` to `clientId`, which behaves as the
  empty string in every use in this module (falsiness tests, and the storage
  write applies `|| ""`), so it too is modelled by `""`.
* `localStoreUpdatedAt` holds an ISO-8601 string in the source; it is
  modelled by its parsed instant (`new Date(s).getTime()` milliseconds),
  with `none` for the initial/unparsable string whose parse is `NaN`. -/
structure GoIamState where
  user : Option User
  loadingMe : Bool
  verifying : Bool
  clientId : String
  clientAvailable : Bool
  baseUrl : String
  token : String
  loginPageUrl : String
  callbackPageUrl : String
  err : String
  redirect : Bool
  loadedState : Bool
  verified : Bool
  localStoreUpdatedAt : Option Int
deriving Repr, DecidableEq

/-- The `localStorage` keys this module reads and writes.  `none` is an
absent key.  The `user` key stores `JSON.stringify(u || null)`: its value is
modelled as the serialised `Option User` (with `none` for the JSON `null`).
The `localStoreUpdatedAt` key stores `new Date(t).toISOString()`, modelled by
the instant `t` itself (`toISOString` is injective on instants). -/
structure LocalStorage where
  client_id : Option String
  access_token : Option String
  user : Option (Option User)
  localStoreUpdatedAt : Option Int
  loadedState : Option String
deriving Repr, DecidableEq

/-- Resolution of the promise an operation returns. -/
inductive Outcome where
  | resolved
  | rejected (msg : String)
deriving Repr, DecidableEq

/-- Outcome of the underlying `fetch`: the network call itself rejects, or it
resolves with an HTTP status and a body already parsed as the envelope `α`
(every endpoint of the identity server answers with the JSON envelope). -/
inductive FetchOutcome (α : Type) where
  | netError (msg : String)
  | response (status : Nat) (body : α)
deriving Repr, DecidableEq

/-- `Response.ok` of the fetch API: status in the range 200–299. -/
def okStatus (status : Nat) : Bool := 200 ≤ status && status ≤ 299

/-- Result of running one operation: the session state and storage after it,
the number of network calls it issued, the `window.location.href` assignment
it performed (if any), and how its promise settled. -/
structure StepResult where
  s : GoIamState
  store : LocalStorage
  networkCalls : Nat
  redirect : Option String
  outcome : Outcome
deriving Repr, DecidableEq

/-! ## The profile refresh (`dashboardMe` and `me` of state.ts) -/

def fiveMinutesMs : Int := 5 * 60 * 1000

/-- The staleness test of `dashboardMe`:
`now.getTime() - new Date(state.localStoreUpdatedAt.value).getTime() < 5*60*1000`.
An unparsable stored string gives `NaN`, for which the comparison is false. -/
def withinTTL (last : Option Int) (now : Int) : Bool :=
  match last with
  | none => false
  | some t => now - t < fiveMinutesMs

/-- The setup object nested in the dashboard envelope's `data`. -/
structure DashboardSetup where
  client_id : String
deriving Repr, DecidableEq

structure DashboardData where
  setup : DashboardSetup
  user : Option User
deriving Repr, DecidableEq

/-- `DashboardMeResponse`: the envelope of `GET {baseUrl}/me/v1/dashboard`. -/
structure DashboardMeResponse where
  success : Bool
  message : String
  data : Option DashboardData
deriving Repr, DecidableEq

/-- `MeResponse`: the envelope of `GET {baseUrl}/me/v1/`, whose `data` is the
user profile itself. -/
structure MeResponse where
  success : Bool
  message : String
  data : Option User
deriving Repr, DecidableEq

/-- `dashboardMe(dontUpdateTime?)` of state.ts, as a pure function of the
session state `s`, the storage, the current instant `now`, the current
`window.location.pathname`, and the outcome `net` of the (single possible)
network call. -/
def dashboardMe (s : GoIamState) (store : LocalStorage) (dontUpdateTime : Bool)
    (now : Int) (pathname : String) (net : FetchOutcome DashboardMeResponse) :
    StepResult :=
  if !dontUpdateTime && withinTTL s.localStoreUpdatedAt now then
    -- recently updated: resolve with no fetch
    { s := { s with clientAvailable := s.clientId ≠ "", loadedState := true }
      store := store, networkCalls := 0, redirect := none, outcome := .resolved }
  else if s.loadingMe then
    -- already loading: resolve with no fetch
    { s := s, store := store, networkCalls := 0, redirect := none
      outcome := .resolved }
  else
    let s₁ := { s with loadingMe := true }
    match net with
    | .netError msg =>
        -- the fetch rejected; the catch handler runs
        { s := { s₁ with clientAvailable := false, loadingMe := false }
          store := store, networkCalls := 1, redirect := none
          outcome := .rejected ("Failed to fetch auth info: " ++ msg) }
    | .response status body =>
        if !okStatus status && status ≠ 401 then
          -- `throw new Error("Network response was not ok")`, then the catch
          { s := { s₁ with clientAvailable := false, loadingMe := false }
            store := store, networkCalls := 1, redirect := none
            outcome := .rejected
              "Failed to fetch auth info: Network response was not ok" }
        else
          let redir : Option String :=
            if status = 401 ∧ pathname ≠ s.loginPageUrl
            then some s.loginPageUrl else none
          -- the success handler
          let s₂ :=
            if !dontUpdateTime then { s₁ with localStoreUpdatedAt := some now }
            else s₁
          let store₂ :=
            if !dontUpdateTime then { store with localStoreUpdatedAt := some now }
            else store
          let cid := (body.data.map (·.setup.client_id)).getD ""
          let fetchedUser := body.data.bind (·.user)
          { s := { s₂ with
              clientId := cid
              user := fetchedUser
              clientAvailable := cid ≠ ""
              loadedState := true
              loadingMe := false }
            store := { store₂ with
              client_id := some cid
              user := some fetchedUser }
            networkCalls := 1, redirect := redir, outcome := .resolved }

/-- `me()` of state.ts: like `dashboardMe` but without the staleness check,
without any timestamp or client-id update, and with `data` being the user. -/
def me (s : GoIamState) (store : LocalStorage) (pathname : String)
    (net : FetchOutcome MeResponse) : StepResult :=
  if s.loadingMe then
    { s := s, store := store, networkCalls := 0, redirect := none
      outcome := .resolved }
  else
    let s₁ := { s with loadingMe := true }
    match net with
    | .netError msg =>
        { s := { s₁ with loadingMe := false }
          store := store, networkCalls := 1, redirect := none
          outcome := .rejected ("Failed to fetch auth info: " ++ msg) }
    | .response status body =>
        if !okStatus status && status ≠ 401 then
          { s := { s₁ with loadingMe := false }
            store := store, networkCalls := 1, redirect := none
            outcome := .rejected
              "Failed to fetch auth info: Network response was not ok" }
        else
          let redir : Option String :=
            if status = 401 ∧ pathname ≠ s.loginPageUrl
            then some s.loginPageUrl else none
          { s := { s₁ with
              user := body.data
              loadedState := true
              loadingMe := false }
            store := { store with user := some body.data }
            networkCalls := 1, redirect := redir, outcome := .resolved }

/-! ## Code-exchange verification (`verify` of state.ts) -/

structure VerifyData where
  access_token : String
deriving Repr, DecidableEq

/-- `VerifyResponse`: the envelope of the verify endpoint.  `data` is present
whenever the call is processed further; the source reads
`data.data.access_token` without a null guard and does so only after
checking `data.success`. -/
structure VerifyResponse where
  success : Bool
  message : String
  data : VerifyData
deriving Repr, DecidableEq

/-- The synchronous prefix of `verify`, up to and including issuing the
network call: either the in-flight guard short-circuits (no fetch, the call
resolves at once), or `verifying` is set and one fetch is issued.  Returns
(state after the prefix, fetches issued, whether it resolved immediately). -/
def verifyStart (s : GoIamState) : GoIamState × Nat × Bool :=
  if s.verifying then (s, 0, true)
  else ({ s with verifying := true }, 1, false)

/-- The error text of `verify`'s success handler:
`data.message || "Failed to verify the code"`. -/
def verifyEnvelopeMsg (body : VerifyResponse) : String :=
  if body.message = "" then "Failed to verify the code" else body.message

/-- The continuation of `verify` on the settled network call (the `.then`
chain and its `.catch`). -/
def verifyCont (s : GoIamState) (store : LocalStorage)
    (net : FetchOutcome VerifyResponse) :
    GoIamState × LocalStorage × Outcome :=
  match net with
  | .netError msg =>
      ({ s with verifying := false }, store,
       .rejected ("Failed to verify the code: " ++ msg))
  | .response _status body =>
      if body.success then
        ({ s with
            token := body.data.access_token
            verified := true
            verifying := false },
         { store with access_token := some body.data.access_token },
         .resolved)
      else
        ({ s with verifying := false }, store,
         .rejected ("Failed to verify the code: " ++ verifyEnvelopeMsg body))

/-- `verify(codeChallenge, code)` of state.ts, whole.  The challenge and code
only shape the request URL, which the claims do not touch. -/
def verify (s : GoIamState) (store : LocalStorage)
    (net : FetchOutcome VerifyResponse) : StepResult :=
  match verifyStart s with
  | (s₁, n, skipped) =>
      if skipped then
        { s := s₁, store := store, networkCalls := n, redirect := none
          outcome := .resolved }
      else
        match verifyCont s₁ store net with
        | (s₂, store₂, o) =>
            { s := s₂, store := store₂, networkCalls := n, redirect := none
              outcome := o }

/-! ## The authenticated fetch wrapper (`fetch` of state.ts) -/

/-- The slice of `RequestInit` this module manipulates: the headers record.
The remaining fields are spread through untouched by `{...init}`. -/
structure RequestInit where
  headers : List (String × String)
deriving Repr, DecidableEq

/-- JS object property assignment `headers[k] = v`: overwrite the existing
entry in place, or append a new one. -/
def setHeader (hs : List (String × String)) (k v : String) :
    List (String × String) :=
  if hs.any (·.1 = k) then hs.map fun p => if p.1 = k then (k, v) else p
  else hs ++ [(k, v)]

/-- Result of the wrapper: the `RequestInit` actually handed to the
underlying `fetch`, plus the usual state/storage/side-effect outcome. -/
structure FetchCallResult where
  request : RequestInit
  s : GoIamState
  store : LocalStorage
  redirect : Option String
  outcome : Outcome
deriving Repr, DecidableEq

/-- The `fetch(url, init?)` wrapper of state.ts (`authenticatedFetch` of the
spec).  `init = none` models a call without the optional argument. -/
def authFetch (s : GoIamState) (store : LocalStorage)
    (init : Option RequestInit) (net : FetchOutcome Unit) : FetchCallResult :=
  let request : RequestInit :=
    if s.token ≠ "" then
      let base := init.getD { headers := [] }
      { base with
          headers := setHeader base.headers "Authorization"
            ("Bearer " ++ s.token) }
    else init.getD { headers := [] }
  match net with
  | .netError msg =>
      -- no catch handler in the source: the rejection propagates
      { request := request, s := s, store := store, redirect := none
        outcome := .rejected msg }
  | .response status _ =>
      if status = 401 then
        { request := request, s := s
          store := { store with loadedState := some "false" }
          redirect := some s.loginPageUrl, outcome := .resolved }
      else
        { request := request, s := s, store := store, redirect := none
          outcome := .resolved }

/-! ## Logout (`logout` of state.ts) -/

structure LogoutResult where
  s : GoIamState
  store : LocalStorage
  redirect : String
deriving Repr, DecidableEq

/-- `logout()` of state.ts.  `now.setMinutes(now.getMinutes() - 5)` yields
the instant exactly five minutes before `now` (the minutes field rolls over
through hours), which is stored as the new `localStoreUpdatedAt`. -/
def logout (s : GoIamState) (store : LocalStorage) (now : Int) : LogoutResult :=
  { s := { s with
      localStoreUpdatedAt := some (now - fiveMinutesMs)
      clientId := ""
      token := ""
      user := none
      clientAvailable := false
      loadedState := false
      verified := false }
    store := { store with
      localStoreUpdatedAt := some (now - fiveMinutesMs)
      client_id := none
      access_token := none
      user := none }
    redirect := s.loginPageUrl }

/-! ## Resource authorization (`hasRequiredResources` of state.ts)

The test `userResources[resource]` is a JS property *read*: it traverses the
prototype chain.  An own entry (a `UserResource` object) is truthy, but so is
every inherited member — the `Object.prototype` methods on the record, and
additionally the `Array.prototype` methods when `resources` is absent and the
`|| []` default makes the receiver an empty array (whose own `length`
property then reads the falsy `0`). -/

/-- The string-keyed members of `Object.prototype`, every one of them truthy
(methods, and the `__proto__` accessor yielding an object). -/
def objectPrototypeMembers : List String :=
  ["constructor", "hasOwnProperty", "isPrototypeOf", "propertyIsEnumerable",
   "toLocaleString", "toString", "valueOf", "__defineGetter__",
   "__defineSetter__", "__lookupGetter__", "__lookupSetter__", "__proto__"]

/-- The string-keyed members of `Array.prototype` (ES2023), every one of
them a truthy method.  `length` is not listed: on the empty-array default it
is an own property whose value `0` is falsy. -/
def arrayPrototypeMembers : List String :=
  ["at", "concat", "constructor", "copyWithin", "entries", "every", "fill",
   "filter", "find", "findIndex", "findLast", "findLastIndex", "flat",
   "flatMap", "forEach", "includes", "indexOf", "join", "keys",
   "lastIndexOf", "map", "pop", "push", "reduce", "reduceRight", "reverse",
   "shift", "slice", "some", "sort", "splice", "toLocaleString",
   "toReversed", "toSorted", "toSpliced", "toString", "unshift", "values",
   "with"]

/-- Truthiness of the JS read `m[k]` on the resources record: an own entry
(its values are objects, hence truthy) or an inherited `Object.prototype`
member. -/
def recordIndexTruthy (m : List (String × UserResource)) (k : String) : Bool :=
  (m.lookup k).isSome || objectPrototypeMembers.contains k

/-- Truthiness of the JS read `[][k]` on the empty-array default: the own
`length` property reads `0` (falsy); anything else is truthy exactly when it
is an inherited `Array.prototype` or `Object.prototype` member. -/
def emptyArrayIndexTruthy (k : String) : Bool :=
  if k = "length" then false
  else arrayPrototypeMembers.contains k || objectPrototypeMembers.contains k

/-- `hasRequiredResources(resources)` of state.ts, with the property read
`userResources[resource]` modelled prototype chain included. -/
def hasRequiredResources (s : GoIamState) (resources : List String) : Bool :=
  match s.user with
  | none => false
  | some u =>
      match u.resources with
      | some m => resources.all fun resource => recordIndexTruthy m resource
      | none => resources.all fun resource => emptyArrayIndexTruthy resource

/-- The keys that resolve to truthy *inherited* values on the object
`user.resources || []` that the code indexes: the `Object.prototype`
members, extended by the `Array.prototype` members on the empty-array
default. -/
def inheritedTruthyKeys (resources : Option (List (String × UserResource))) :
    List String :=
  match resources with
  | some _ => objectPrototypeMembers
  | none => arrayPrototypeMembers ++ objectPrototypeMembers

/-! ## Derived conditions -/

/-- `dashboardMe` skips its network call exactly when the cache is fresh (and
the bypass flag is off) or a refresh is already in flight. -/
def skipsFetch (s : GoIamState) (dontUpdateTime : Bool) (now : Int) : Bool :=
  (!dontUpdateTime && withinTTL s.localStoreUpdatedAt now) || s.loadingMe

/-! ## Concrete sample data for the closed instances -/

def sampleResource : UserResource :=
  { role_ids := [("1", true)], policy_ids := [], name := "Admin", key := "admin" }

def sampleUser : User :=
  { id := "123", project_id := "proj-456", email := "john@example.com"
    name := some "John Doe", phone := some "+1234567890", enabled := true
    profile_pic := some "", expiry := some "2024-01-01T00:00:00Z"
    roles := [("admin", { id := "1", name := "Admin" })]
    resources := some [("admin", sampleResource)]
    policies := []
    created_at := some "2023-01-01T00:00:00Z", created_by := "system"
    updated_at := some "2023-01-01T00:00:00Z", updated_by := "system" }

/-- A hydrated profile whose JSON lacked the `resources` field, sending
`hasRequiredResources` through the `|| []` empty-array default. -/
def sampleUserNoResources : User :=
  { sampleUser with resources := none }

def sampleState : GoIamState :=
  { user := some sampleUser, loadingMe := false, verifying := false
    clientId := "abc", clientAvailable := true
    baseUrl := "https://api.example.com", token := "tok-1"
    loginPageUrl := "/login"
    callbackPageUrl := "https://app.example.com/verify"
    err := "", redirect := false, loadedState := true, verified := true
    localStoreUpdatedAt := some 1000000 }

def sampleStore : LocalStorage :=
  { client_id := some "abc", access_token := some "tok-1"
    user := some (some sampleUser), localStoreUpdatedAt := some 1000000
    loadedState := none }

def sampleDashBody : DashboardMeResponse :=
  { success := true, message := "Success"
    data := some { setup := { client_id := "abc" }, user := some sampleUser } }

def sampleMeBody : MeResponse :=
  { success := true, message := "Success", data := some sampleUser }

/-! ## The claims -/

/-- **C1.** The claim says `generatePKCECodes` produces as `code_challenge`
the base64url encoding of the **SHA-256 digest** of the 32 random bytes and
returns the raw bytes separately as verifier material.  The code does
neither: it base64url-encodes the raw bytes themselves (no hashing at all)
while still declaring `code_challenge_method = "S256"`, and it returns no
verifier.  At the all-zero draw the code yields 43 `'A'`s, whereas the
spec's S256 challenge is the encoded digest — two different strings. -/
theorem generatePKCECodes_skips_sha256 :
    generatePKCECodes (List.replicate 32 0) =
      { code_challenge := "AAAAAAAAAAAAAAAAAAAAAAAAAAAAAAAAAAAAAAAAAAA"
        code_challenge_method := "S256" } ∧
    (specGenerate (List.replicate 32 0)).challenge =
      "Zmh6rfhivXdsj8GLjp-OIAiXFIVu4jOzkCpZHQ1fKSU" ∧
    (generatePKCECodes (List.replicate 32 0)).code_challenge ≠
      (specGenerate (List.replicate 32 0)).challenge := by
  refine ⟨by decide, by decide, by decide⟩

/-- **C2.** For every session state whose cache timestamp parses and lies
less than five minutes before `now`, `dashboardMe(false)` makes no network
call and leaves `user`, `localStoreUpdatedAt` and the persistent store
unchanged, whatever the network would have answered. -/
theorem dashboardMe_fresh_cache_no_network (s : GoIamState)
    (store : LocalStorage) (now : Int) (pathname : String)
    (net : FetchOutcome DashboardMeResponse) (t : Int)
    (ht : s.localStoreUpdatedAt = some t) (hfresh : now - t < fiveMinutesMs) :
    (dashboardMe s store false now pathname net).networkCalls = 0 ∧
    (dashboardMe s store false now pathname net).s.user = s.user ∧
    (dashboardMe s store false now pathname net).s.localStoreUpdatedAt =
      s.localStoreUpdatedAt ∧
    (dashboardMe s store false now pathname net).store = store := by
  have hw : withinTTL s.localStoreUpdatedAt now = true := by
    simp [withinTTL, ht]
    exact hfresh
  simp [dashboardMe, hw]

/-- Closed instance of `dashboardMe_fresh_cache_no_network`: a cache written
one millisecond ago suppresses the fetch and changes nothing. -/
theorem dashboardMe_fresh_cache_no_network_instance :
    (dashboardMe sampleState sampleStore false 1000001 "/dashboard"
        (.netError "boom")).networkCalls = 0 ∧
    (dashboardMe sampleState sampleStore false 1000001 "/dashboard"
        (.netError "boom")).s.user = sampleState.user ∧
    (dashboardMe sampleState sampleStore false 1000001 "/dashboard"
        (.netError "boom")).s.localStoreUpdatedAt =
      sampleState.localStoreUpdatedAt ∧
    (dashboardMe sampleState sampleStore false 1000001 "/dashboard"
        (.netError "boom")).store = sampleStore :=
  dashboardMe_fresh_cache_no_network sampleState sampleStore 1000001
    "/dashboard" (.netError "boom") 1000000 rfl (by decide)

/-- Whenever neither guard of `dashboardMe` fires, exactly one network call
is issued, on every branch of the response handling. -/
theorem dashboardMe_fetch_count (s : GoIamState) (store : LocalStorage)
    (dont : Bool) (now : Int) (pathname : String)
    (net : FetchOutcome DashboardMeResponse)
    (h : skipsFetch s dont now = false) :
    (dashboardMe s store dont now pathname net).networkCalls = 1 := by
  have h1 : (!dont && withinTTL s.localStoreUpdatedAt now) = false :=
    (Bool.or_eq_false_iff.mp h).1
  have h2 : s.loadingMe = false := (Bool.or_eq_false_iff.mp h).2
  cases net with
  | netError m => simp [dashboardMe, h1, h2]
  | response status body =>
      simp only [dashboardMe, h1, h2, Bool.false_eq_true, if_false]
      split <;> simp

/-- **C3 counterexample.** The claim says `dashboardMe(true)` performs a
network call for every session state.  In a state whose `loadingMe` flag is
set (a refresh already in flight), the call returns immediately with zero
network calls. -/
theorem dashboardMe_force_inflight_no_network :
    (dashboardMe { sampleState with loadingMe := true } sampleStore true
        1000001 "/dashboard" (.response 200 sampleDashBody)).networkCalls =
      0 ∧
    (dashboardMe { sampleState with loadingMe := true } sampleStore true
        1000001 "/dashboard" (.response 200 sampleDashBody)).outcome =
      .resolved := by
  constructor <;> rfl

/-- **C3 (amended).** Provided no refresh is already in flight
(`loadingMe = false`), `dashboardMe(true)` performs a network call to the
profile endpoint regardless of how recent the cache timestamp is. -/
theorem dashboardMe_force_fetches (s : GoIamState) (store : LocalStorage)
    (now : Int) (pathname : String) (net : FetchOutcome DashboardMeResponse)
    (h : s.loadingMe = false) :
    (dashboardMe s store true now pathname net).networkCalls = 1 := by
  apply dashboardMe_fetch_count
  simp [skipsFetch, h]

/-- Closed instance of `dashboardMe_force_fetches`: the bypass flag defeats
even a cache written one millisecond ago. -/
theorem dashboardMe_force_fetches_instance :
    (dashboardMe sampleState sampleStore true 1000001 "/dashboard"
        (.response 200 sampleDashBody)).networkCalls = 1 :=
  dashboardMe_force_fetches sampleState sampleStore 1000001 "/dashboard"
    (.response 200 sampleDashBody) rfl

/-- **C4 counterexample.** The claim says every successful profile refresh
(`dashboardMe` or `me`) updates the cache timestamp to the current time and
persists it.  A successful `me()` call resolves and replaces the user, yet
leaves `localStoreUpdatedAt` untouched in memory and in storage (it reads no
clock at all); `dashboardMe(true)` behaves the same way. -/
theorem me_success_timestamp_unchanged :
    (me sampleState sampleStore "/dashboard"
        (.response 200 sampleMeBody)).outcome = .resolved ∧
    (me sampleState sampleStore "/dashboard"
        (.response 200 sampleMeBody)).s.user = some sampleUser ∧
    (me sampleState sampleStore "/dashboard"
        (.response 200 sampleMeBody)).s.localStoreUpdatedAt = some 1000000 ∧
    (me sampleState sampleStore "/dashboard"
        (.response 200 sampleMeBody)).store.localStoreUpdatedAt =
      some 1000000 ∧
    (dashboardMe sampleState sampleStore true 2000000 "/dashboard"
        (.response 200 sampleDashBody)).s.localStoreUpdatedAt =
      some 1000000 := by
  refine ⟨rfl, rfl, rfl, rfl, rfl⟩

/-- **C4 (amended).** On a successful (2xx) refresh that actually reaches the
network, both variants replace `user` wholesale with the fetched profile and
persist it to storage; the cache timestamp, however, is set to the current
time and persisted only by `dashboardMe` with the `dontUpdateTime` flag
false — `dashboardMe(true)` and `me()` leave it unchanged in memory and in
storage. -/
theorem refresh_success_user_and_timestamp :
    (∀ (s : GoIamState) (store : LocalStorage) (now : Int) (pathname : String)
        (status : Nat) (body : DashboardMeResponse),
       skipsFetch s false now = false → okStatus status = true →
       (dashboardMe s store false now pathname
           (.response status body)).outcome = .resolved ∧
       (dashboardMe s store false now pathname
           (.response status body)).s.user = body.data.bind (·.user) ∧
       (dashboardMe s store false now pathname
           (.response status body)).store.user =
         some (body.data.bind (·.user)) ∧
       (dashboardMe s store false now pathname
           (.response status body)).s.localStoreUpdatedAt = some now ∧
       (dashboardMe s store false now pathname
           (.response status body)).store.localStoreUpdatedAt = some now) ∧
    (∀ (s : GoIamState) (store : LocalStorage) (now : Int) (pathname : String)
        (status : Nat) (body : DashboardMeResponse),
       s.loadingMe = false → okStatus status = true →
       (dashboardMe s store true now pathname
           (.response status body)).s.user = body.data.bind (·.user) ∧
       (dashboardMe s store true now pathname
           (.response status body)).store.user =
         some (body.data.bind (·.user)) ∧
       (dashboardMe s store true now pathname
           (.response status body)).s.localStoreUpdatedAt =
         s.localStoreUpdatedAt ∧
       (dashboardMe s store true now pathname
           (.response status body)).store.localStoreUpdatedAt =
         store.localStoreUpdatedAt) ∧
    (∀ (s : GoIamState) (store : LocalStorage) (pathname : String)
        (status : Nat) (body : MeResponse),
       s.loadingMe = false → okStatus status = true →
       (me s store pathname (.response status body)).outcome = .resolved ∧
       (me s store pathname (.response status body)).s.user = body.data ∧
       (me s store pathname (.response status body)).store.user =
         some body.data ∧
       (me s store pathname (.response status body)).s.localStoreUpdatedAt =
         s.localStoreUpdatedAt ∧
       (me s store pathname
           (.response status body)).store.localStoreUpdatedAt =
         store.localStoreUpdatedAt) := by
  have hok401 : ∀ status : Nat, okStatus status = true →
      (!okStatus status && !(status = 401 : Bool)) = false := by
    intro status h
    simp [h]
  refine ⟨?_, ?_, ?_⟩
  · intro s store now pathname status body hskip hok
    have h1 : (!false && withinTTL s.localStoreUpdatedAt now) = false :=
      (Bool.or_eq_false_iff.mp hskip).1
    have h2 : s.loadingMe = false := (Bool.or_eq_false_iff.mp hskip).2
    simp only [Bool.not_false, Bool.true_and] at h1
    simp [dashboardMe, h1, h2, hok]
  · intro s store now pathname status body h2 hok
    simp [dashboardMe, h2, hok]
  · intro s store pathname status body h2 hok
    simp [me, h2, hok]

/-- Closed instance of `refresh_success_user_and_timestamp`: all three
success branches evaluated at time 2000000 on a stale cache. -/
theorem refresh_success_user_and_timestamp_instance :
    ((dashboardMe sampleState sampleStore false 2000000 "/dashboard"
        (.response 200 sampleDashBody)).s.localStoreUpdatedAt =
      some 2000000) ∧
    ((dashboardMe sampleState sampleStore true 2000000 "/dashboard"
        (.response 200 sampleDashBody)).s.localStoreUpdatedAt =
      some 1000000) ∧
    ((me sampleState sampleStore "/dashboard"
        (.response 200 sampleMeBody)).s.user = some sampleUser) := by
  refine ⟨?_, ?_, ?_⟩
  · exact (refresh_success_user_and_timestamp.1 sampleState sampleStore
      2000000 "/dashboard" 200 sampleDashBody (by decide) (by decide)).2.2.2.1
  · exact ((refresh_success_user_and_timestamp.2.1 sampleState sampleStore
      2000000 "/dashboard" 200 sampleDashBody rfl (by decide)).2.2.1).trans
      rfl
  · exact ((refresh_success_user_and_timestamp.2.2 sampleState sampleStore
      "/dashboard" 200 sampleMeBody rfl (by decide)).2.1).trans rfl

/-- **C5.** Two `verify` calls overlapping in time — the second arriving
while the first is still in flight — issue exactly one network call between
them; the second returns an immediately resolved promise and changes
nothing. -/
theorem verify_concurrent_single_call (s : GoIamState)
    (h : s.verifying = false) :
    (verifyStart s).2.1 + (verifyStart (verifyStart s).1).2.1 = 1 ∧
    (verifyStart (verifyStart s).1).2.2 = true ∧
    (verifyStart (verifyStart s).1).1 = (verifyStart s).1 := by
  simp [verifyStart, h]

/-- Closed instance of `verify_concurrent_single_call` at an idle sample
session. -/
theorem verify_concurrent_single_call_instance :
    (verifyStart sampleState).2.1 +
        (verifyStart (verifyStart sampleState).1).2.1 = 1 ∧
    (verifyStart (verifyStart sampleState).1).2.2 = true ∧
    (verifyStart (verifyStart sampleState).1).1 = (verifyStart sampleState).1 :=
  verify_concurrent_single_call sampleState rfl

/-- An association-list lookup succeeds exactly when the key occurs among
the stored keys. -/
theorem lookup_isSome_iff_mem_keys {β : Type} (l : List (String × β))
    (k : String) :
    (l.lookup k).isSome = true ↔ k ∈ l.map Prod.fst := by
  induction l with
  | nil => simp [List.lookup]
  | cons p rest ih =>
      by_cases hk : k = p.1
      · simp [List.lookup, hk]
      · have hbeq : (k == p.1) = false := beq_eq_false_iff_ne.mpr hk
        simp [List.lookup, hbeq, hk, ih]

/-- **C6 counterexample.** The claim says `hasRequiredResources(keys)` is
true *iff* every key is a member of `user.resources`.  The JS read
`userResources[resource]` traverses the prototype chain, so with a user
present the program answers true for `"toString"` (an inherited
`Object.prototype` method) although it is no member of the resources record
— and, when `resources` is absent, for `"push"` via the `|| []` empty-array
default, whose member set is empty. -/
theorem hasRequiredResources_prototype_counterexample :
    hasRequiredResources sampleState ["toString"] = true ∧
    sampleState.user = some sampleUser ∧
    "toString" ∉ (sampleUser.resources.getD []).map Prod.fst ∧
    hasRequiredResources { sampleState with user := some sampleUserNoResources }
        ["push"] = true ∧
    (sampleUserNoResources.resources.getD []).map Prod.fst = [] := by
  refine ⟨by decide, rfl, by decide, by decide, rfl⟩

/-- The empty-array read is truthy exactly on the inherited
`Array.prototype`/`Object.prototype` members (`length` is in neither list). -/
theorem emptyArrayIndexTruthy_iff (k : String) :
    emptyArrayIndexTruthy k = true ↔
      k ∈ arrayPrototypeMembers ++ objectPrototypeMembers := by
  by_cases hk : k = "length"
  · subst hk
    simp [emptyArrayIndexTruthy]
    decide
  · simp [emptyArrayIndexTruthy, hk, List.mem_append]

/-- **C6 (amended).** `hasRequiredResources(keys)` is true exactly when a
user is present and every key of `keys` either occurs among the keys of
`user.resources` or names a truthy inherited property of the object the code
indexes (the `Object.prototype` members, extended by the `Array.prototype`
members when `resources` is absent; the own `length` of the empty-array
default reads the falsy `0`); on the empty list it reduces to the presence
of a user.  (The embedding is a total pure function: the operation cannot
throw and performs no I/O.) -/
theorem hasRequiredResources_characterisation (s : GoIamState)
    (keys : List String) :
    (hasRequiredResources s keys = true ↔
      ∃ u, s.user = some u ∧
        ∀ k ∈ keys,
          k ∈ (u.resources.getD []).map Prod.fst ∨
          k ∈ inheritedTruthyKeys u.resources) ∧
    hasRequiredResources s [] = s.user.isSome := by
  constructor
  · cases hu : s.user with
    | none => simp [hasRequiredResources, hu]
    | some u =>
        cases hr : u.resources with
        | none =>
            simp [hasRequiredResources, hu, hr, List.all_eq_true,
              emptyArrayIndexTruthy_iff, inheritedTruthyKeys]
        | some m =>
            simp [hasRequiredResources, hu, hr, List.all_eq_true,
              recordIndexTruthy, inheritedTruthyKeys,
              lookup_isSome_iff_mem_keys]
  · cases hu : s.user with
    | none => simp [hasRequiredResources, hu]
    | some u => cases hr : u.resources <;> simp [hasRequiredResources, hu, hr]

/-- **C7 counterexample.** The claim says that after `logout()` the very
next `dashboardMe(false)`, even immediate, performs a network call.  If a
refresh was in flight when `logout()` ran (`loadingMe` true, which `logout`
does not reset), the next `dashboardMe(false)` is swallowed by the
duplicate-suppression guard: zero network calls. -/
theorem logout_inflight_refresh_no_network :
    (dashboardMe
        (logout { sampleState with loadingMe := true } sampleStore 1000000).s
        (logout { sampleState with loadingMe := true } sampleStore
            1000000).store
        false 1000000 "/dashboard"
        (.response 200 sampleDashBody)).networkCalls = 0 := by
  rfl

/-- **C7 (amended).** After `logout()`, `token` and `user` are cleared in
memory and in durable storage, and — provided no refresh was in flight
(`loadingMe = false`) — the very next `dashboardMe(false)`, at any instant
not before the logout, bypasses the cache and performs a network call. -/
theorem logout_clears_and_forces_refresh (s : GoIamState)
    (store : LocalStorage) (now now' : Int) (pathname : String)
    (net : FetchOutcome DashboardMeResponse)
    (hload : s.loadingMe = false) (hle : now ≤ now') :
    (logout s store now).s.token = "" ∧
    (logout s store now).s.user = none ∧
    (logout s store now).store.access_token = none ∧
    (logout s store now).store.user = none ∧
    (dashboardMe (logout s store now).s (logout s store now).store false now'
        pathname net).networkCalls = 1 := by
  refine ⟨rfl, rfl, rfl, rfl, ?_⟩
  apply dashboardMe_fetch_count
  have hw : withinTTL (some (now - fiveMinutesMs)) now' = false := by
    simp only [withinTTL, decide_eq_false_iff_not, not_lt, fiveMinutesMs]
    omega
  simp [skipsFetch, logout, hw, hload]

/-- Closed instance of `logout_clears_and_forces_refresh`: logout at instant
1000000 followed by an immediate refresh at the same instant. -/
theorem logout_clears_and_forces_refresh_instance :
    (logout sampleState sampleStore 1000000).s.token = "" ∧
    (logout sampleState sampleStore 1000000).s.user = none ∧
    (logout sampleState sampleStore 1000000).store.access_token = none ∧
    (logout sampleState sampleStore 1000000).store.user = none ∧
    (dashboardMe (logout sampleState sampleStore 1000000).s
        (logout sampleState sampleStore 1000000).store false 1000000
        "/dashboard" (.response 200 sampleDashBody)).networkCalls = 1 :=
  logout_clears_and_forces_refresh sampleState sampleStore 1000000 1000000
    "/dashboard" (.response 200 sampleDashBody) rfl le_rfl

/-- **C8.** A 401 response is not surfaced as an error: the profile refresh
resolves and redirects to the login page unless the current location already
is the login page, and the `fetch` wrapper resolves (returning the response)
and redirects unconditionally. -/
theorem http401_resolves_and_redirects :
    (∀ (s : GoIamState) (store : LocalStorage) (dont : Bool) (now : Int)
        (pathname : String) (body : DashboardMeResponse),
       skipsFetch s dont now = false →
       (dashboardMe s store dont now pathname
           (.response 401 body)).outcome = .resolved ∧
       (pathname ≠ s.loginPageUrl →
         (dashboardMe s store dont now pathname
             (.response 401 body)).redirect = some s.loginPageUrl) ∧
       (pathname = s.loginPageUrl →
         (dashboardMe s store dont now pathname
             (.response 401 body)).redirect = none)) ∧
    (∀ (s : GoIamState) (store : LocalStorage) (init : Option RequestInit),
       (authFetch s store init (.response 401 ())).outcome = .resolved ∧
       (authFetch s store init (.response 401 ())).redirect =
         some s.loginPageUrl) := by
  constructor
  · intro s store dont now pathname body hskip
    have h1 : (!dont && withinTTL s.localStoreUpdatedAt now) = false :=
      (Bool.or_eq_false_iff.mp hskip).1
    have h2 : s.loadingMe = false := (Bool.or_eq_false_iff.mp hskip).2
    by_cases hp : pathname = s.loginPageUrl <;>
      simp [dashboardMe, h1, h2, okStatus, hp]
  · intro s store init
    constructor <;> simp [authFetch]

/-- Closed instance of `http401_resolves_and_redirects`: a 401 during a
stale-cache refresh away from the login page, on the login page, and through
the fetch wrapper. -/
theorem http401_resolves_and_redirects_instance :
    (dashboardMe sampleState sampleStore true 2000000 "/dashboard"
        (.response 401 sampleDashBody)).outcome = .resolved ∧
    (dashboardMe sampleState sampleStore true 2000000 "/dashboard"
        (.response 401 sampleDashBody)).redirect = some "/login" ∧
    (dashboardMe sampleState sampleStore true 2000000 "/login"
        (.response 401 sampleDashBody)).redirect = none ∧
    (authFetch sampleState sampleStore none (.response 401 ())).outcome =
      .resolved ∧
    (authFetch sampleState sampleStore none (.response 401 ())).redirect =
      some "/login" := by
  refine ⟨?_, ?_, ?_, ?_, ?_⟩
  · exact (http401_resolves_and_redirects.1 sampleState sampleStore true
      2000000 "/dashboard" sampleDashBody (by decide)).1
  · exact ((http401_resolves_and_redirects.1 sampleState sampleStore true
      2000000 "/dashboard" sampleDashBody (by decide)).2.1 (by decide)).trans
      rfl
  · exact (http401_resolves_and_redirects.1 sampleState sampleStore true
      2000000 "/login" sampleDashBody (by decide)).2.2 rfl
  · exact (http401_resolves_and_redirects.2 sampleState sampleStore none).1
  · exact ((http401_resolves_and_redirects.2 sampleState sampleStore
      none).2).trans rfl

/-- A failing verify outcome: the envelope reports `success: false`, or the
network call itself rejected. -/
def verifyFails (net : FetchOutcome VerifyResponse) : Prop :=
  match net with
  | .netError _ => True
  | .response _ body => body.success = false

/-- The inner error text the failing verify call wraps: the rejection
message of the fetch, or `data.message || "Failed to verify the code"`. -/
def verifyErrorText (net : FetchOutcome VerifyResponse) : String :=
  match net with
  | .netError m => m
  | .response _ body => verifyEnvelopeMsg body

/-- **C9.** A `verify` call that proceeds to the network and fails — failure
envelope or network error — leaves `token` and `verified` at their pre-call
values, writes nothing to storage, and rejects with a message that wraps the
server-supplied text when one is available. -/
theorem verify_failure_leaves_unauthenticated (s : GoIamState)
    (store : LocalStorage) (net : FetchOutcome VerifyResponse)
    (hidle : s.verifying = false) (hfail : verifyFails net) :
    (verify s store net).s.token = s.token ∧
    (verify s store net).s.verified = s.verified ∧
    (verify s store net).store = store ∧
    (verify s store net).networkCalls = 1 ∧
    (verify s store net).outcome =
      .rejected ("Failed to verify the code: " ++ verifyErrorText net) := by
  cases net with
  | netError m => simp [verify, verifyStart, verifyCont, verifyErrorText, hidle]
  | response status body =>
      have hb : body.success = false := hfail
      simp [verify, verifyStart, verifyCont, verifyErrorText, hidle, hb]

/-- Closed instance of `verify_failure_leaves_unauthenticated`: a failure
envelope carrying the server message `"invalid grant"`. -/
theorem verify_failure_leaves_unauthenticated_instance :
    (verify sampleState sampleStore
        (.response 200
          { success := false, message := "invalid grant"
            data := { access_token := "" } })).s.token = "tok-1" ∧
    (verify sampleState sampleStore
        (.response 200
          { success := false, message := "invalid grant"
            data := { access_token := "" } })).store = sampleStore ∧
    (verify sampleState sampleStore
        (.response 200
          { success := false, message := "invalid grant"
            data := { access_token := "" } })).outcome =
      .rejected "Failed to verify the code: invalid grant" := by
  have h := verify_failure_leaves_unauthenticated sampleState sampleStore
    (.response 200
      { success := false, message := "invalid grant"
        data := { access_token := "" } }) rfl rfl
  exact ⟨h.1.trans rfl, h.2.2.1, h.2.2.2.2.trans (by rfl)⟩

/-! ### Header bookkeeping for the fetch wrapper -/

theorem lookup_map_overwrite_self (hs : List (String × String)) (k v : String)
    (h : hs.any (·.1 = k) = true) :
    ((hs.map fun p => if p.1 = k then (k, v) else p).lookup k) = some v := by
  induction hs with
  | nil => simp at h
  | cons p rest ih =>
      by_cases hp : p.1 = k
      · simp only [List.map_cons, if_pos hp]
        simp [List.lookup]
      · have hr : rest.any (·.1 = k) = true := by
          simpa [List.any_cons, hp] using h
        have hbeq : (k == p.1) = false := beq_eq_false_iff_ne.mpr
          fun hk => hp hk.symm
        simp only [List.map_cons, if_neg hp]
        simp [List.lookup, hbeq, ih hr]

theorem lookup_map_overwrite_ne (hs : List (String × String)) (k v k' : String)
    (h : k' ≠ k) :
    ((hs.map fun p => if p.1 = k then (k, v) else p).lookup k') =
      hs.lookup k' := by
  induction hs with
  | nil => simp
  | cons p rest ih =>
      by_cases hp : p.1 = k
      · have hbeq : (k' == k) = false := beq_eq_false_iff_ne.mpr h
        have hbeq' : (k' == p.1) = false := beq_eq_false_iff_ne.mpr
          fun hk => h (hk.trans hp)
        simp only [List.map_cons, if_pos hp]
        simp [List.lookup, hbeq, hbeq', ih]
      · simp only [List.map_cons, if_neg hp]
        cases hb : (k' == p.1) <;> simp [List.lookup, hb, ih]

theorem lookup_eq_none_of_any_false {β : Type} (hs : List (String × β))
    (k : String) (h : hs.any (·.1 = k) = false) :
    hs.lookup k = none := by
  induction hs with
  | nil => simp
  | cons p rest ih =>
      have hp : ¬p.1 = k := by
        intro hk
        simp [List.any_cons, hk] at h
      have hr : rest.any (·.1 = k) = false := by
        simpa [List.any_cons, hp] using h
      have hbeq : (k == p.1) = false := beq_eq_false_iff_ne.mpr
        fun hk => hp hk.symm
      simp [List.lookup, hbeq, ih hr]

theorem lookup_append_single_self {β : Type} (hs : List (String × β))
    (k : String) (v : β) (h : hs.any (·.1 = k) = false) :
    ((hs ++ [(k, v)]).lookup k) = some v := by
  induction hs with
  | nil => simp [List.lookup]
  | cons p rest ih =>
      have hp : ¬p.1 = k := by
        intro hk
        simp [List.any_cons, hk] at h
      have hr : rest.any (·.1 = k) = false := by
        simpa [List.any_cons, hp] using h
      have hbeq : (k == p.1) = false := beq_eq_false_iff_ne.mpr
        fun hk => hp hk.symm
      simp [List.lookup, hbeq, ih hr]

theorem lookup_append_single_ne {β : Type} (hs : List (String × β))
    (k k' : String) (v : β) (h : k' ≠ k) :
    ((hs ++ [(k, v)]).lookup k') = hs.lookup k' := by
  induction hs with
  | nil => simp [List.lookup, beq_eq_false_iff_ne.mpr h]
  | cons p rest ih =>
      cases hb : (k' == p.1) <;> simp [List.lookup, hb, ih]

/-- `setHeader` makes the written key resolve to the written value. -/
theorem lookup_setHeader_self (hs : List (String × String)) (k v : String) :
    ((setHeader hs k v).lookup k) = some v := by
  by_cases h : hs.any (·.1 = k) = true
  · simp [setHeader, h, lookup_map_overwrite_self hs k v h]
  · have h' : hs.any (·.1 = k) = false := by
      cases hh : hs.any (·.1 = k)
      · rfl
      · exact absurd hh h
    simp [setHeader, h', lookup_append_single_self hs k v h']

/-- `setHeader` leaves every other key's resolution unchanged. -/
theorem lookup_setHeader_ne (hs : List (String × String)) (k v k' : String)
    (h : k' ≠ k) :
    ((setHeader hs k v).lookup k') = hs.lookup k' := by
  by_cases hh : hs.any (·.1 = k) = true
  · simp [setHeader, hh, lookup_map_overwrite_ne hs k v k' h]
  · have h' : hs.any (·.1 = k) = false := by
      cases hx : hs.any (·.1 = k)
      · rfl
      · exact absurd hx hh
    simp [setHeader, h', lookup_append_single_ne hs k k' v h]

/-- The `RequestInit` the wrapper hands to the underlying `fetch`, as a
function of the state and the caller's options. -/
theorem authFetch_request (s : GoIamState) (store : LocalStorage)
    (init : Option RequestInit) (net : FetchOutcome Unit) :
    (authFetch s store init net).request =
      (if s.token ≠ "" then
        { (init.getD { headers := [] }) with
            headers := setHeader (init.getD { headers := [] }).headers
              "Authorization" ("Bearer " ++ s.token) }
      else init.getD { headers := [] }) := by
  cases net with
  | netError m => rfl
  | response status u =>
      show (if status = 401 then _ else _ : FetchCallResult).request = _
      split <;> rfl

/-- **C10.** When a non-empty token is held, the wrapper's outgoing request
carries `Authorization: Bearer {token}`, overwriting any caller-supplied
`Authorization` header while leaving every other header untouched; with an
empty token the caller's options pass through unmodified. -/
theorem authFetch_bearer_header (s : GoIamState) (store : LocalStorage)
    (init : Option RequestInit) (net : FetchOutcome Unit) :
    (s.token ≠ "" →
      ((authFetch s store init net).request.headers.lookup "Authorization" =
        some ("Bearer " ++ s.token)) ∧
      (∀ k, k ≠ "Authorization" →
        (authFetch s store init net).request.headers.lookup k =
          (init.getD { headers := [] }).headers.lookup k)) ∧
    (s.token = "" →
      (authFetch s store init net).request = init.getD { headers := [] }) := by
  constructor
  · intro htok
    rw [authFetch_request, if_pos htok]
    exact ⟨lookup_setHeader_self _ _ _,
      fun k hk => lookup_setHeader_ne _ _ _ _ hk⟩
  · intro htok
    rw [authFetch_request, if_neg (by simp [htok])]

/-- Closed instance of `authFetch_bearer_header`: a caller-supplied stale
`Authorization` header is overwritten while `X-Custom` survives, and with an
empty token the options pass through bearing the stale header. -/
theorem authFetch_bearer_header_instance :
    (authFetch sampleState sampleStore
        (some { headers := [("Authorization", "Bearer stale"),
                            ("X-Custom", "1")] })
        (.response 200 ())).request.headers.lookup "Authorization" =
      some "Bearer tok-1" ∧
    (authFetch sampleState sampleStore
        (some { headers := [("Authorization", "Bearer stale"),
                            ("X-Custom", "1")] })
        (.response 200 ())).request.headers.lookup "X-Custom" = some "1" ∧
    (authFetch { sampleState with token := "" } sampleStore
        (some { headers := [("Authorization", "Bearer stale")] })
        (.response 200 ())).request =
      { headers := [("Authorization", "Bearer stale")] } := by
  refine ⟨?_, ?_, ?_⟩
  · exact ((authFetch_bearer_header sampleState sampleStore
      (some { headers := [("Authorization", "Bearer stale"),
                          ("X-Custom", "1")] })
      (.response 200 ())).1 (by decide)).1.trans rfl
  · exact ((authFetch_bearer_header sampleState sampleStore
      (some { headers := [("Authorization", "Bearer stale"),
                          ("X-Custom", "1")] })
      (.response 200 ())).1 (by decide)).2 "X-Custom" (by decide)
  · exact (authFetch_bearer_header { sampleState with token := "" }
      sampleStore (some { headers := [("Authorization", "Bearer stale")] })
      (.response 200 ())).2 rfl

end GoIam
